import Mathlib

/-!
Verification of the Namebot client library (`src/Namebot/core.py`).

The library is a thin asynchronous HTTP client: `NameBotAPI.get_character`
assembles a JSON payload, POSTs it to `<api_url>/api/get-character`, and
translates the HTTP outcome into a Python dictionary; `Namebot` wraps that
dictionary in a `NameBotResult`; `get_character_name` projects the character
name out of a successful result.

We embed the Python code shallowly:

* JSON / Python values are the inductive `JSON`.
* The remote endpoint's behaviour is a function from the issued POST request
  to an `HttpOutcome` (a transport-level exception, or a response with a
  status, a content-type flag and the result of `response.json()`).
* Python exceptions that can escape a function are modelled with
  `Except String`; code that cannot raise returns plain values.
* Each entry point also returns the list of POST requests it issued, so that
  "exactly one outbound call" is a provable statement.
-/

/-- Values of Python objects decoded from JSON (and the dictionaries the
library builds itself).  `num` carries an `Int`: the library only ever stores
the integer `user_id` and HTTP status codes. -/
inductive JSON where
  | null : JSON
  | bool : Bool → JSON
  | num : Int → JSON
  | str : String → JSON
  | arr : List JSON → JSON
  | obj : List (String × JSON) → JSON
deriving Repr

/-- Python truthiness (`bool(v)`) of a decoded JSON value: `None`, `False`,
`0`, `""`, `[]` and `{}` are falsy, everything else truthy. -/
def truthy : JSON → Bool
  | .null => false
  | .bool b => b
  | .num n => n != 0
  | .str s => s != ""
  | .arr xs => !xs.isEmpty
  | .obj fs => !fs.isEmpty

/-- Python `data.get(key, default)`.  On a dictionary it returns the stored
value or the default; on any non-dictionary value the attribute access
raises `AttributeError`. -/
def pyGet (data : JSON) (key : String) (dflt : JSON) : Except String JSON :=
  match data with
  | .obj fs => .ok ((fs.lookup key).getD dflt)
  | _ => .error "AttributeError"

/-- Python `s.rstrip('/')`: remove every trailing `'/'` character. -/
def pyRstripSlash (s : String) : String :=
  ⟨(s.data.reverse.dropWhile (· = '/')).reverse⟩

/-- The arguments of `NameBotAPI.get_character` / `Namebot`. -/
structure GetCharArgs where
  user_id : Int
  img_unique_id : String
  bot_token : String
  file_id : String

/-- The JSON payload built by `get_character`. -/
def buildPayload (a : GetCharArgs) : List (String × JSON) :=
  [("user_id", .num a.user_id),
   ("img_unique_id", .str a.img_unique_id),
   ("bot_token", .str a.bot_token),
   ("file_id", .str a.file_id)]

/-- The `message` value a non-200 response ends up with: the parse-failure
text when the body claims to be JSON but `response.json()` raises, the
generic status text otherwise. -/
def non200Message (status : Nat) (ct : Bool) (jr : Except String JSON) : JSON :=
  match ct, jr with
  | true, .error m => .str ("Request failed: " ++ m)
  | true, .ok _ => .str ("API Error: " ++ toString status)
  | false, _ => .str ("API Error: " ++ toString status)

/-- One outbound POST request: the URL and the JSON payload. -/
structure PostRequest where
  url : String
  payload : List (String × JSON)

/-- What a single POST can do, seen from the client: raise a (transport
level) exception, or return a response carrying an HTTP status, whether the
content type is `application/json`, and what `await response.json()` yields
(`.error` when decoding raises). -/
inductive HttpOutcome where
  | raises (msg : String)
  | responds (status : Nat) (contentTypeJson : Bool) (jsonResult : Except String JSON)

/-- The endpoint behaviour: a deterministic response to each POST request. -/
def Endpoint := PostRequest → HttpOutcome

/-- The dictionary built in the `except Exception as e:` branch of
`get_character`. -/
def requestFailedDict (msg : String) : JSON :=
  .obj [("success", .bool false),
        ("message", .str ("Request failed: " ++ msg)),
        ("error", .str msg)]

/-- The dictionary built in the non-200 branch of `get_character`. -/
def apiErrorDict (status : Nat) (errorData : JSON) : JSON :=
  .obj [("success", .bool false),
        ("message", .str ("API Error: " ++ toString status)),
        ("error", errorData)]

/-- The request that `get_character` issues when the stored (already
stripped) base URL is `apiUrl`. -/
def characterRequest (apiUrl : String) (a : GetCharArgs) : PostRequest :=
  { url := apiUrl ++ "/api/get-character", payload := buildPayload a }

/-- `NameBotAPI.get_character`: POST the payload once and translate the
outcome into a dictionary.  `apiUrl` is the stored `self.api_url` (stripped
at construction).  Returns the list of issued POST requests together with
the returned Python value.  The function never raises: every exception of
the body is caught by its `try`/`except Exception` and converted to
`requestFailedDict`. -/
def get_character (apiUrl : String) (a : GetCharArgs) (env : Endpoint) :
    List PostRequest × JSON :=
  let req := characterRequest apiUrl a
  match env req with
  | .raises msg => ([req], requestFailedDict msg)
  | .responds status ctJson jsonResult =>
    if status = 200 then
      match jsonResult with
      | .ok v => ([req], v)
      | .error msg => ([req], requestFailedDict msg)
    else
      if ctJson then
        match jsonResult with
        | .ok v => ([req], apiErrorDict status v)
        | .error msg => ([req], requestFailedDict msg)
      else
        ([req], apiErrorDict status (.obj []))

/-- `NameBotResult`: the five fields its constructor extracts from the
response dictionary, plus the raw dictionary itself. -/
structure NameBotResult where
  raw_data : JSON
  success : JSON
  character_name : JSON
  message : JSON
  source : JSON
  error : JSON
deriving Repr

/-- `NameBotResult.__init__`: each field is a `data.get(...)` with the
source's default; on a non-dictionary argument the first attribute access
raises `AttributeError` (modelled by `Except`). -/
def NameBotResult.ofData (data : JSON) : Except String NameBotResult := do
  let success ← pyGet data "success" (.bool false)
  let character_name ← pyGet data "character_name" .null
  let message ← pyGet data "message" (.str "")
  let source ← pyGet data "source" .null
  let error ← pyGet data "error" .null
  pure { raw_data := data, success := success, character_name := character_name,
         message := message, source := source, error := error }

/-- `NameBotResult.is_success`: returns the raw stored `success` value. -/
def NameBotResult.is_success (r : NameBotResult) : JSON := r.success

/-- `NameBotResult.name`: returns the stored `character_name` value
(`None` when the key was absent). -/
def NameBotResult.name (r : NameBotResult) : JSON := r.character_name

/-- `NameBotResult.__bool__`: Python's `bool()` protocol requires the
method to return an actual `bool`; `__bool__` returns `self.success`
unchanged, so `bool(result)` raises `TypeError` whenever the stored
`success` value is not a boolean. -/
def NameBotResult.pyBool (r : NameBotResult) : Except String Bool :=
  match r.success with
  | .bool b => .ok b
  | _ => .error "TypeError: __bool__ should return bool"

/-- `NameBotResult.from_database`: Python `self.source == "database"`;
`==` against a non-string value is `False`. -/
def NameBotResult.from_database (r : NameBotResult) : Bool :=
  match r.source with
  | .str s => s = "database"
  | _ => false

/-- `NameBotResult.from_api`: Python `self.source == "api"`. -/
def NameBotResult.from_api (r : NameBotResult) : Bool :=
  match r.source with
  | .str s => s = "api"
  | _ => false

/-- `Namebot`: open a client, call `get_character`, wrap the response in a
`NameBotResult`.  The base URL is stripped of trailing slashes by
`NameBotAPI.__init__`.  The wrapping happens outside `get_character`'s
`try` block, so an `AttributeError` from the constructor escapes. -/
def Namebot (a : GetCharArgs) (api_url : String) (env : Endpoint) :
    List PostRequest × Except String NameBotResult :=
  let stored := pyRstripSlash api_url
  let res := get_character stored a env
  (res.1, NameBotResult.ofData res.2)

/-- `get_character_name`: `result.name if result.is_success else None`,
where the `if` takes the Python truthiness of the raw `is_success` value. -/
def get_character_name (a : GetCharArgs) (api_url : String) (env : Endpoint) :
    List PostRequest × Except String JSON :=
  let res := Namebot a api_url env
  (res.1, res.2.map (fun r => if truthy r.is_success then r.name else .null))

/-!
The spec's Identity Resolver.  The repository is described as four drafts of
one contract; only one draft is present under `src/`.  The drafts carrying
the membership gate and the image-acquisition step are missing, so those
steps are modelled from the spec (§4.1) below and used for the claims that
speak about them.
-/

/-- Membership of the required channel: the tri-state of the spec's data
model; `unknown` is treated as not-member (fail-closed). -/
inductive MembershipStatus where
  | member : MembershipStatus
  | notMember : MembershipStatus
  | unknown : MembershipStatus
deriving DecidableEq, Repr

/-- The spec's error taxonomy (§7). -/
inductive ErrorKind where
  | Unauthorized : ErrorKind
  | MissingInput : ErrorKind
  | SourceUnavailable : ErrorKind
  | AuthFailed : ErrorKind
  | RemoteRejected : ErrorKind
  | TransportError : ErrorKind
  | InternalError : ErrorKind
deriving DecidableEq, Repr

/-- Where a successful identification came from. -/
inductive OutcomeSource where
  | remote : OutcomeSource
  | cache : OutcomeSource
deriving DecidableEq, Repr

/-- The spec's `IdentificationOutcome`: exactly one variant. -/
inductive IdentificationOutcome where
  | success (characterName : String) (source : OutcomeSource) : IdentificationOutcome
  | failure (kind : ErrorKind) (detail : String) : IdentificationOutcome
deriving DecidableEq, Repr

/-- The spec's `IdentificationRequest`. -/
structure IdentificationRequest where
  requesterId : Int
  imageUniqueId : String
  botCredential : String
  imageFileRef : Option String

/-- The outbound calls the resolver can issue, for stating which calls a
resolution performs. -/
inductive ResolveCall where
  | membershipCheck : ResolveCall
  | fileFetch : ResolveCall
  | identificationCall : ResolveCall
deriving DecidableEq, Repr

/-- What the identification endpoint's wire answer looks like to the
resolver: a parsed JSON body with a success flag, a name and an error
field, or an unparseable body. -/
inductive IdentWireBody where
  | parsed (successFlag : Bool) (name : String) (errorField : String) : IdentWireBody
  | unparseable : IdentWireBody
deriving DecidableEq, Repr

/-- The identification call's possible outcomes. -/
inductive IdentResponse where
  | transportFail (msg : String) : IdentResponse
  | http (status : Nat) (body : IdentWireBody) : IdentResponse
deriving DecidableEq, Repr

/-- Modelled from the spec: the response mapping of `resolve` (§4.1 step 4).
HTTP 200 with a truthy success indicator is a remote `Success`; 401 is
`AuthFailed`; other statuses with a parseable body are `RemoteRejected`
with the body's error field; unparseable non-200 bodies give
`RemoteRejected "HTTP <status>"`; transport failures give
`TransportError`; an unparseable 200 body is an unexpected processing
failure, `InternalError`. -/
def mapIdentResponse : IdentResponse → IdentificationOutcome
  | .transportFail msg => .failure .TransportError msg
  | .http status body =>
    if status = 200 then
      match body with
      | .parsed true name _ => .success name .remote
      | .parsed false _ err => .failure .RemoteRejected err
      | .unparseable => .failure .InternalError "unexpected response shape"
    else if status = 401 then
      .failure .AuthFailed "invalid credential"
    else
      match body with
      | .parsed _ _ err => .failure .RemoteRejected err
      | .unparseable => .failure .RemoteRejected ("HTTP " ++ toString status)

/-- Modelled from the spec: the Identity Resolver `resolve` (§4.1).  The
draft implementing the membership gate and the image-acquisition step is
not under `src/`, so the steps follow the spec's words: (1) when the gate
is enabled, a non-member or unknown requester is rejected as
`Unauthorized`; (2) an absent `imageFileRef` is `MissingInput`, a fetch
returning no data is `SourceUnavailable`; (3-4) otherwise the
identification endpoint is called and its answer mapped.  The first
component lists the outbound calls performed, in order. -/
def resolve (gateEnabled : Bool) (membership : MembershipStatus)
    (fetchBytes : String → Option (List Nat)) (identify : IdentResponse)
    (req : IdentificationRequest) :
    List ResolveCall × IdentificationOutcome :=
  let gateCalls : List ResolveCall := if gateEnabled then [.membershipCheck] else []
  if gateEnabled ∧ membership ≠ .member then
    (gateCalls, .failure .Unauthorized "must join required channel")
  else
    match req.imageFileRef with
    | none => (gateCalls, .failure .MissingInput "no image source available")
    | some ref =>
      match fetchBytes ref with
      | none => (gateCalls ++ [.fileFetch], .failure .SourceUnavailable "failed to acquire image")
      | some _ => (gateCalls ++ [.fileFetch, .identificationCall], mapIdentResponse identify)

/-- The projection the spec describes for `get_character_name`: the
character name of the outcome when its success indicator is truthy, `None`
otherwise.  Stated from the spec's words, to be compared with the code's
`get_character_name`. -/
def specNameProjection (r : NameBotResult) : JSON :=
  if truthy r.is_success then r.name else .null

/-! Helper lemmas shared by several claims. -/

/-- `NameBotResult.__init__` on an actual dictionary: every field is the
stored value or the source's default. -/
theorem NameBotResult.ofData_obj (fs : List (String × JSON)) :
    NameBotResult.ofData (.obj fs) = .ok
      { raw_data := .obj fs,
        success := (fs.lookup "success").getD (.bool false),
        character_name := (fs.lookup "character_name").getD .null,
        message := (fs.lookup "message").getD (.str ""),
        source := (fs.lookup "source").getD .null,
        error := (fs.lookup "error").getD .null } := rfl

/-- Wrapping the `except`-branch dictionary in a `NameBotResult`. -/
theorem NameBotResult.ofData_requestFailed (m : String) :
    NameBotResult.ofData (requestFailedDict m) = .ok
      { raw_data := requestFailedDict m, success := .bool false,
        character_name := .null, message := .str ("Request failed: " ++ m),
        source := .null, error := .str m } := rfl

/-- Wrapping the non-200-branch dictionary in a `NameBotResult`. -/
theorem NameBotResult.ofData_apiError (status : Nat) (ed : JSON) :
    NameBotResult.ofData (apiErrorDict status ed) = .ok
      { raw_data := apiErrorDict status ed, success := .bool false,
        character_name := .null, message := .str ("API Error: " ++ toString status),
        source := .null, error := ed } := rfl

/-- `get_character` issues exactly the one POST, whatever the endpoint
does. -/
theorem get_character_calls (apiUrl : String) (a : GetCharArgs) (env : Endpoint) :
    (get_character apiUrl a env).1 = [characterRequest apiUrl a] := by
  rcases henv : env (characterRequest apiUrl a) with msg | ⟨s, ct, jr⟩
  · simp [get_character, henv]
  · rcases jr with m | v <;> cases ct <;> simp [get_character, henv] <;> split <;> rfl

/-- The value `get_character` returns on a non-200 response. -/
theorem get_character_non200 (apiUrl : String) (a : GetCharArgs) (env : Endpoint)
    (status : Nat) (ct : Bool) (jr : Except String JSON)
    (hst : status ≠ 200)
    (henv : env (characterRequest apiUrl a) = .responds status ct jr) :
    (get_character apiUrl a env).2 =
      (match ct, jr with
        | true, .ok v => apiErrorDict status v
        | true, .error m => requestFailedDict m
        | false, _ => apiErrorDict status (.obj [])) := by
  cases ct <;> rcases jr with m | v <;> simp [get_character, henv, hst]

/-- The non-200 branches of `Namebot`: a failure-shaped result whose
`message` is the generic `"API Error: <status>"` text, or the
`"Request failed: ..."` text when the declared-JSON body fails to parse. -/
theorem namebot_non200 (a : GetCharArgs) (url : String) (env : Endpoint)
    (status : Nat) (ct : Bool) (jr : Except String JSON)
    (hst : status ≠ 200)
    (henv : env (characterRequest (pyRstripSlash url) a) = .responds status ct jr) :
    ∃ r, (Namebot a url env).2 = .ok r ∧ r.success = .bool false ∧
      r.message = non200Message status ct jr := by
  cases ct <;> rcases jr with m | v <;>
    · simp only [Namebot, get_character, henv]
      rw [if_neg hst]
      exact ⟨_, rfl, rfl, rfl⟩

/-- The non-200 `message` is never the spec's `"invalid credential"`: both
of its shapes start with other text. -/
theorem non200Message_ne_invalid_credential (status : Nat) (ct : Bool)
    (jr : Except String JSON) :
    non200Message status ct jr ≠ .str "invalid credential" := by
  cases ct <;> rcases jr with m | v <;> simp [non200Message] <;> intro h <;>
    · have h' := congrArg String.data h
      rw [String.data_append] at h'
      have h0 := congrArg List.head? h'
      simp at h0

/-! The claims. -/

/-- C1: the claim says no exception ever propagates past `Namebot`, for any
endpoint behaviour.  The code violates this: on an HTTP 200 answer whose
body is valid JSON but not an object (here the empty array `[]`),
`get_character` returns the parsed non-dictionary value, and
`NameBotResult.__init__` — called outside the `try` block — raises
`AttributeError`, which escapes `Namebot`. -/
theorem C1_attributeError_escapes_namebot :
    (Namebot ⟨123456, "img_001", "bot_token", "file_123"⟩
        "https://your-app.vercel.app"
        (fun _ => .responds 200 true (.ok (.arr [])))).2
      = .error "AttributeError" := rfl

/-- C2: an HTTP 200 answer whose JSON body is a dictionary with a truthy
`success` value yields a success result whose `name` is exactly the body's
`character_name` value. -/
theorem C2_success_maps_name (a : GetCharArgs) (url : String) (env : Endpoint)
    (ct : Bool) (fields : List (String × JSON))
    (henv : env (characterRequest (pyRstripSlash url) a)
        = .responds 200 ct (.ok (.obj fields)))
    (hsucc : truthy ((fields.lookup "success").getD (.bool false)) = true) :
    ∃ r, (Namebot a url env).2 = .ok r ∧ truthy r.is_success = true ∧
      r.name = (fields.lookup "character_name").getD .null := by
  have h1 : (Namebot a url env).2 = NameBotResult.ofData (.obj fields) := by
    simp [Namebot, get_character, henv]
  rw [h1, NameBotResult.ofData_obj]
  exact ⟨_, rfl, hsucc, rfl⟩

/-- Witness for C2 at a concrete success response. -/
theorem C2_success_maps_name_witness :
    ∃ r, (Namebot ⟨123456, "img_001", "bot_token", "file_123"⟩
        "https://your-app.vercel.app"
        (fun _ => .responds 200 true
          (.ok (.obj [("success", .bool true), ("character_name", .str "Asuka")])))).2
      = .ok r ∧ truthy r.is_success = true ∧ r.name = .str "Asuka" :=
  C2_success_maps_name _ _ _ true
    [("success", .bool true), ("character_name", .str "Asuka")] rfl rfl

/-- C3 counterexample: the claim says HTTP 401 yields the detail
`"invalid credential"`; the code has no 401 branch and produces the generic
`"API Error: 401"` message instead. -/
theorem C3_counterexample :
    ((Namebot ⟨1, "img", "tok", "file"⟩ "https://x"
        (fun _ => .responds 401 false (.error "ContentTypeError"))).2.map
      NameBotResult.message) = .ok (.str "API Error: 401") ∧
    "API Error: 401" ≠ "invalid credential" := ⟨rfl, by decide⟩

/-- C3 amended: HTTP 401 goes through the generic non-200 mapping: the
result is failure-shaped with message `"API Error: 401"` (or the
`"Request failed: ..."` text when a declared-JSON body fails to parse),
never `"invalid credential"`. -/
theorem C3_401_generic_mapping (a : GetCharArgs) (url : String) (env : Endpoint)
    (ct : Bool) (jr : Except String JSON)
    (henv : env (characterRequest (pyRstripSlash url) a) = .responds 401 ct jr) :
    ∃ r, (Namebot a url env).2 = .ok r ∧ r.success = .bool false ∧
      r.message = non200Message 401 ct jr ∧
      r.message ≠ .str "invalid credential" := by
  obtain ⟨r, h1, h2, h3⟩ := namebot_non200 a url env 401 ct jr (by decide) henv
  refine ⟨r, h1, h2, h3, ?_⟩
  rw [h3]
  exact non200Message_ne_invalid_credential 401 ct jr

/-- Witness for C3's amended statement at a concrete 401 response. -/
theorem C3_401_generic_mapping_witness :
    ∃ r, (Namebot ⟨1, "img", "tok", "file"⟩ "https://x"
        (fun _ => .responds 401 true (.ok (.obj [("detail", .str "nope")])))).2
      = .ok r ∧ r.success = .bool false ∧
      r.message = .str "API Error: 401" ∧ r.message ≠ .str "invalid credential" :=
  C3_401_generic_mapping _ _ _ true (.ok (.obj [("detail", .str "nope")])) rfl

/-- C4: against the spec-modelled resolver, a request with no
`imageFileRef` whose membership gate (if enabled) is satisfied fails with
`MissingInput` and never reaches the identification endpoint. -/
theorem C4_missing_image_ref (gateEnabled : Bool) (membership : MembershipStatus)
    (fetchBytes : String → Option (List Nat)) (identify : IdentResponse)
    (req : IdentificationRequest)
    (hgate : gateEnabled = true → membership = .member)
    (href : req.imageFileRef = none) :
    (resolve gateEnabled membership fetchBytes identify req).2
        = .failure .MissingInput "no image source available" ∧
      ResolveCall.identificationCall
        ∉ (resolve gateEnabled membership fetchBytes identify req).1 := by
  cases gateEnabled with
  | false => simp [resolve, href]
  | true =>
    have hm := hgate rfl
    simp [resolve, href, hm]

/-- Witness for C4: gate disabled, no image reference. -/
theorem C4_missing_image_ref_witness :
    (resolve false .member (fun _ => none) (.transportFail "down")
        ⟨42, "u1", "T", none⟩).2
        = .failure .MissingInput "no image source available" ∧
      ResolveCall.identificationCall
        ∉ (resolve false .member (fun _ => none) (.transportFail "down")
            ⟨42, "u1", "T", none⟩).1 :=
  C4_missing_image_ref false .member _ _ _ (fun h => nomatch h) rfl

/-- C5 counterexample: the claim says a non-200 response with an
unparseable body carries the detail `"HTTP <status>"`; at status 404 the
code produces `"API Error: 404"` instead. -/
theorem C5_counterexample :
    ((Namebot ⟨1, "img", "tok", "file"⟩ "https://x"
        (fun _ => .responds 404 false (.error "ContentTypeError"))).2.map
      NameBotResult.message) = .ok (.str "API Error: 404") ∧
    "API Error: 404" ≠ "HTTP 404" := ⟨rfl, by decide⟩

/-- C5 amended: a non-200 response yields a failure-shaped result whose
message is `"API Error: <status>"` when the body does not declare JSON (so
is never parsed), and `"Request failed: <error>"` when a declared-JSON
body fails to parse. -/
theorem C5_non200_message (a : GetCharArgs) (url : String) (env : Endpoint)
    (status : Nat) (ct : Bool) (jr : Except String JSON)
    (hst : status ≠ 200)
    (henv : env (characterRequest (pyRstripSlash url) a) = .responds status ct jr) :
    ∃ r, (Namebot a url env).2 = .ok r ∧ r.success = .bool false ∧
      r.message = non200Message status ct jr ∧
      (ct = false → r.message = .str ("API Error: " ++ toString status)) ∧
      (∀ m, ct = true → jr = .error m →
        r.message = .str ("Request failed: " ++ m)) := by
  obtain ⟨r, h1, h2, h3⟩ := namebot_non200 a url env status ct jr hst henv
  refine ⟨r, h1, h2, h3, ?_, ?_⟩
  · intro hct
    subst hct
    rw [h3]
    rcases jr with m | v <;> rfl
  · intro m hct hjr
    subst hct
    subst hjr
    simp [h3, non200Message]

/-- Witness for C5's amended statement at a concrete 404 non-JSON reply. -/
theorem C5_non200_message_witness :
    ∃ r, (Namebot ⟨1, "img", "tok", "file"⟩ "https://x"
        (fun _ => .responds 404 false (.error "ContentTypeError"))).2
      = .ok r ∧ r.success = .bool false ∧
      r.message = non200Message 404 false (.error "ContentTypeError") ∧
      (false = false → r.message = .str ("API Error: " ++ toString 404)) ∧
      (∀ m, false = true →
        (Except.error "ContentTypeError" : Except String JSON) = Except.error m →
        r.message = .str ("Request failed: " ++ m)) :=
  C5_non200_message _ _ _ 404 false (.error "ContentTypeError") (by decide) rfl

/-- C6: `Namebot` is deterministic: two runs with identical arguments
against the same deterministic endpoint produce identical calls and
identical outcome values (hence identical `success`, `character_name`,
`message`, `source` and `error` fields). -/
theorem C6_deterministic (a₁ a₂ : GetCharArgs) (url₁ url₂ : String)
    (env₁ env₂ : Endpoint)
    (ha : a₁ = a₂) (hu : url₁ = url₂) (he : env₁ = env₂) :
    Namebot a₁ url₁ env₁ = Namebot a₂ url₂ env₂ := by
  rw [ha, hu, he]

/-- Witness for C6 at concrete identical runs. -/
theorem C6_deterministic_witness :
    Namebot ⟨123456, "img_001", "bot_token", "file_123"⟩ "https://x"
        (fun _ => .raises "timeout")
      = Namebot ⟨123456, "img_001", "bot_token", "file_123"⟩ "https://x"
        (fun _ => .raises "timeout") :=
  C6_deterministic _ _ _ _ _ _ rfl rfl rfl

/-- C7: one resolution issues exactly one POST — the identification call —
whatever the endpoint answers; in particular no retry happens after a
non-200 status, an unparseable body or a raised exception. -/
theorem C7_exactly_one_post (a : GetCharArgs) (url : String) (env : Endpoint) :
    (Namebot a url env).1 = [characterRequest (pyRstripSlash url) a] :=
  get_character_calls (pyRstripSlash url) a env

/-- C8: trailing slashes on the base URL are stripped at construction:
`Namebot` at `u` and at `u ++ "/"` send the same request URL and return
identical outcomes. -/
theorem C8_trailing_slash_normalized (a : GetCharArgs) (u : String) (env : Endpoint) :
    Namebot a (u ++ "/") env = Namebot a u env ∧
      characterRequest (pyRstripSlash (u ++ "/")) a
        = characterRequest (pyRstripSlash u) a ∧
      (characterRequest (pyRstripSlash u) a).url
        = pyRstripSlash u ++ "/api/get-character" := by
  have hs : pyRstripSlash (u ++ "/") = pyRstripSlash u := by
    unfold pyRstripSlash
    rw [String.data_append]
    simp [List.dropWhile_cons]
  refine ⟨?_, ?_, rfl⟩
  · unfold Namebot
    rw [hs]
  · rw [hs]

/-- C9 counterexample: the claim says `bool(result)` always equals the
truthiness of the dictionary's `success` value.  For
`{"success": "yes"}` the stored value is a non-boolean, so `__bool__`
returns a string and Python's `bool()` protocol raises `TypeError`, while
the truthiness of `"yes"` is `True` and `is_success` is the raw string. -/
theorem C9_counterexample :
    (NameBotResult.ofData (.obj [("success", .str "yes")])).map
        NameBotResult.pyBool
      = .ok (.error "TypeError: __bool__ should return bool") ∧
    (NameBotResult.ofData (.obj [("success", .str "yes")])).map
        NameBotResult.is_success
      = .ok (.str "yes") ∧
    truthy (.str "yes") = true := ⟨rfl, rfl, rfl⟩

/-- C9 amended: for every response dictionary whose `success` value is a
boolean (or absent, defaulting to `False`), `bool(result)` and
`is_success` both denote that boolean, an absent key gives a failure, and
the single boolean makes the outcome success or failure, never both. -/
theorem C9_bool_success_consistent (fields : List (String × JSON)) (b : Bool)
    (hb : (fields.lookup "success").getD (.bool false) = .bool b) :
    ∃ r, NameBotResult.ofData (.obj fields) = .ok r ∧
      r.pyBool = .ok b ∧ r.is_success = .bool b ∧ truthy r.is_success = b ∧
      (fields.lookup "success" = none → b = false) := by
  refine ⟨_, NameBotResult.ofData_obj fields, ?_, ?_, ?_, ?_⟩
  · simp [NameBotResult.pyBool, hb]
  · simpa [NameBotResult.is_success] using hb
  · simp [NameBotResult.is_success, hb, truthy]
  · intro hnone
    rw [hnone] at hb
    simpa using hb.symm

/-- Witness for C9's amended statement at `{"success": true}`. -/
theorem C9_bool_success_consistent_witness :
    ∃ r, NameBotResult.ofData (.obj [("success", .bool true)]) = .ok r ∧
      r.pyBool = .ok true ∧ r.is_success = .bool true ∧
      truthy r.is_success = true ∧
      ([("success", JSON.bool true)].lookup "success" = none → true = false) :=
  C9_bool_success_consistent [("success", .bool true)] true rfl

/-- C10: `get_character_name` is `Namebot` composed with the spec's
projection — the character name when the success indicator is truthy,
`None` otherwise; in particular a successful body without a
`character_name` key yields `None`. -/
theorem C10_name_projection (a : GetCharArgs) (url : String) (env : Endpoint) :
    (get_character_name a url env).2
        = ((Namebot a url env).2).map specNameProjection ∧
    ∀ fields, env (characterRequest (pyRstripSlash url) a)
          = .responds 200 true (.ok (.obj fields)) →
      fields.lookup "character_name" = none →
      truthy ((fields.lookup "success").getD (.bool false)) = true →
      (get_character_name a url env).2 = .ok .null := by
  constructor
  · rfl
  · intro fields henv hname hsucc
    have h1 : (Namebot a url env).2 = NameBotResult.ofData (.obj fields) := by
      simp [Namebot, get_character, henv]
    have h2 : (get_character_name a url env).2
        = ((Namebot a url env).2).map specNameProjection := rfl
    rw [h2, h1, NameBotResult.ofData_obj]
    simp [Except.map, specNameProjection, NameBotResult.is_success,
      NameBotResult.name, hsucc, hname]

/-- Witness for C10's projection at a success body with no name field. -/
theorem C10_name_projection_witness :
    (get_character_name ⟨1, "i", "t", "f"⟩ "https://x"
        (fun _ => .responds 200 true (.ok (.obj [("success", .bool true)])))).2
      = .ok .null :=
  (C10_name_projection _ _ _).2 [("success", .bool true)] rfl rfl rfl
